import Mathlib

/-!
Shallow embedding of the Google Drive metadata-harvesting client
(`src/drive_rag/tools/google_drive_list_tool.py`) and theorems checking the
specification's claims about it.

Remote I/O is made explicit: the paged listing endpoint is a function from the
built query to the sequence of pages it serves (the continuation cursor is
present exactly while further pages remain, so an unchanged remote is a fixed
page list), the parent-lookup endpoint is a function that may fail, and the
clock read by `datetime.utcnow().isoformat()` is a string parameter.
Python truthiness of the optional inputs is modelled by explicit `pyTruthy*`
functions.
-/

namespace DriveRag

/-- Raw provider user sub-object: `owners(emailAddress, displayName)`,
`lastModifyingUser(emailAddress, displayName)`. -/
structure RawUser where
  emailAddress : Option String
  displayName : Option String
deriving DecidableEq, Repr

/-- Raw provider permission entry: `permissions(id, emailAddress, role, type)`. -/
structure RawPermission where
  id : Option String
  emailAddress : Option String
  role : Option String
  type : Option String
deriving DecidableEq, Repr

/-- One raw record of the provider's `files(...)` response, with the exact
field set requested by `list_google_drive_files`. Every scalar field is
optional (Python `dict.get` yields `None` when absent); `parents` absent and
`parents` empty are both modelled by `[]`, which is how the code treats them
(`'parents' in file_item and file_item['parents']`). -/
structure RawFile where
  id : Option String
  name : Option String
  mimeType : Option String
  createdTime : Option String
  modifiedTime : Option String
  size : Option String
  version : Option String
  webViewLink : Option String
  webContentLink : Option String
  iconLink : Option String
  thumbnailLink : Option String
  trashed : Option Bool
  starred : Option Bool
  shared : Option Bool
  owners : List RawUser
  lastModifyingUser : Option RawUser
  permissions : List RawPermission
  parents : List String
  properties : Option (List (String × String))
  appProperties : Option (List (String × String))
deriving DecidableEq, Repr

/-- Result of the remote parent-lookup call `files().get(fileId, fields='id,name')`:
a record carrying optional `id` and `name`. -/
structure ParentLookupResult where
  id : Option String
  name : Option String
deriving DecidableEq, Repr

/-- The `parent_info` sub-dictionary built by `_extract_file_metadata`.
In the Python output it is spread with `**parent_info`, so when it is the
empty dict the two keys are absent from the record; `Option ParentInfo`
models key presence (`none` = keys absent). -/
structure ParentInfo where
  parent_folder_id : Option String
  parent_folder_name : Option String
deriving DecidableEq, Repr

/-- Flattened permission entry `{email, role, type}` of the normalized record. -/
structure PermissionEntry where
  email : Option String
  role : Option String
  type : Option String
deriving DecidableEq, Repr

/-- The normalized metadata dictionary built by `_extract_file_metadata`,
field for field. `parent_info = none` means the `parent_folder_id` and
`parent_folder_name` keys are absent from the dictionary. -/
structure FileRecord where
  file_id : Option String
  filename : Option String
  mime_type : Option String
  web_view_link : Option String
  download_link : Option String
  icon_link : Option String
  thumbnail_link : Option String
  created_time : Option String
  modified_time : Option String
  indexed_at : String
  owner_email : Option String
  modified_by_email : Option String
  permissions : List PermissionEntry
  shared : Bool
  parent_info : Option ParentInfo
  file_size_bytes : Option Int
  version : Option String
  trashed : Bool
  starred : Bool
  properties : List (String × String)
  app_properties : List (String × String)
  text_content : Option String
  chunks : List String
  document_type : Option String
  case_id : Option String
  iso_clauses : List String
  approval_status : Option String
deriving DecidableEq, Repr

/-- Value of a decimal digit character, `none` for a non-digit. -/
def digitVal (c : Char) : Option Nat :=
  if c.isDigit then some (c.toNat - 48) else none

/-- Accumulate a decimal digit string; `none` when a non-digit occurs or no
digit was seen. -/
def parseDigits : List Char → Option Nat → Option Nat
  | [], acc => acc
  | c :: cs, acc =>
    match digitVal c, acc with
    | some d, some n => parseDigits cs (some (n * 10 + d))
    | some d, none => parseDigits cs (some d)
    | none, _ => none

/-- Python `int(s)` on a string: an optional minus sign followed by decimal
digits gives the signed value; input on which Python would raise
`ValueError` is mapped to `none`. -/
def pyInt (s : String) : Option Int :=
  match s.data with
  | '-' :: cs => (parseDigits cs none).map (fun n => -(n : Int))
  | cs => (parseDigits cs none).map (fun n => (n : Int))

/-- Python `s.startswith(pre)`: `pre`'s characters are a prefix of `s`'s. -/
def str_startsWith (s pre : String) : Bool := pre.data.isPrefixOf s.data

/-- Python `sep.join(parts)`. -/
def py_join (sep : String) : List String → String
  | [] => ""
  | [s] => s
  | s :: rest => s ++ sep ++ py_join sep rest

/-- Python truthiness of an optional string (`None` and `""` are falsy). -/
def pyTruthyStr : Option String → Bool
  | none => false
  | some s => !(s == "")

/-- Python truthiness of an optional list (`None` and `[]` are falsy). -/
def pyTruthyList : Option (List String) → Bool
  | none => false
  | some l => !l.isEmpty

/-- Python truthiness of an optional integer (`None` and `0` are falsy),
used for the `max_results` check `if max_results and ...`. -/
def pyTruthyNat : Option Nat → Bool
  | none => false
  | some n => !(n == 0)

/-- Query construction of `list_google_drive_files` (lines 94-106): folder
clause if `folder_id` is truthy, parenthesized MIME disjunction if
`mime_types` is truthy, `trashed=false` unless `include_trashed`; parts
joined with `" and "`, and `None` when no part is present. -/
def build_query (folder_id : Option String) (mime_types : Option (List String))
    (include_trashed : Bool) : Option String :=
  let folder_part : List String :=
    if pyTruthyStr folder_id then ["'" ++ folder_id.getD "" ++ "' in parents"] else []
  let mime_part : List String :=
    if pyTruthyList mime_types then
      ["(" ++ py_join " or "
        ((mime_types.getD []).map (fun mt => "mimeType='" ++ mt ++ "'")) ++ ")"]
    else []
  let trash_part : List String := if include_trashed then [] else ["trashed=false"]
  let query_parts := folder_part ++ mime_part ++ trash_part
  if query_parts.isEmpty then none else some (py_join " and " query_parts)

/-- The pagination loop of `list_google_drive_files` (lines 139-169): extend
the accumulator with each served page; after each page, if `max_results` is
truthy and the accumulated count has reached it, truncate to `max_results`
and stop; otherwise continue while a next-page token is present (i.e. while
further pages remain) and stop when it is absent. -/
def fetch_pages (max_results : Option Nat) :
    List (List RawFile) → List RawFile → List RawFile
  | [], all_files => all_files
  | page :: rest, all_files =>
    let acc := all_files ++ page
    if pyTruthyNat max_results ∧ acc.length ≥ max_results.getD 0 then
      acc.take (max_results.getD 0)
    else
      fetch_pages max_results rest acc

/-- `_extract_file_metadata` (lines 186-278). `lookup` is the remote call
`files().get(fileId=parent_id, fields='id,name')`, whose failure of any kind
is the bare `except:` branch; `now` is `datetime.utcnow().isoformat()`. -/
def _extract_file_metadata (file_item : RawFile)
    (lookup : String → Except String ParentLookupResult) (now : String) : FileRecord :=
  let parent_info : Option ParentInfo :=
    match file_item.parents with
    | [] => none
    | parent_id :: _ =>
      match lookup parent_id with
      | Except.ok parent => some ⟨parent.id, parent.name⟩
      | Except.error _ => some ⟨some parent_id, some "Unknown"⟩
  let owner_email : Option String :=
    match file_item.owners with
    | [] => none
    | o :: _ => o.emailAddress
  let modifier_email : Option String :=
    match file_item.lastModifyingUser with
    | none => none
    | some u => u.emailAddress
  let permission_list : List PermissionEntry :=
    file_item.permissions.map (fun p => ⟨p.emailAddress, p.role, p.type⟩)
  { file_id := file_item.id
    filename := file_item.name
    mime_type := file_item.mimeType
    web_view_link := file_item.webViewLink
    download_link := file_item.webContentLink
    icon_link := file_item.iconLink
    thumbnail_link := file_item.thumbnailLink
    created_time := file_item.createdTime
    modified_time := file_item.modifiedTime
    indexed_at := now ++ "Z"
    owner_email := owner_email
    modified_by_email := modifier_email
    permissions := permission_list
    shared := file_item.shared.getD false
    parent_info := parent_info
    file_size_bytes :=
      match file_item.size with
      | none => none
      | some s => if s == "" then none else pyInt s
    version := file_item.version
    trashed := file_item.trashed.getD false
    starred := file_item.starred.getD false
    properties := file_item.properties.getD []
    app_properties := file_item.appProperties.getD []
    text_content := none
    chunks := []
    document_type := none
    case_id := none
    iso_clauses := []
    approval_status := none }

/-- `list_google_drive_files` (lines 64-179): build the query, walk every
page the remote serves for that query under the `max_results` cap, then map
`_extract_file_metadata` over the accumulated raw records. -/
def list_google_drive_files (folder_id : Option String)
    (mime_types : Option (List String)) (include_trashed : Bool)
    (max_results : Option Nat) (remote : Option String → List (List RawFile))
    (lookup : String → Except String ParentLookupResult) (now : String) :
    List FileRecord :=
  let query := build_query folder_id mime_types include_trashed
  let all_files := fetch_pages max_results (remote query) []
  all_files.map (fun item => _extract_file_metadata item lookup now)

/-- The fixed MIME allow-list of `get_pilot_folder_files` (lines 349-354). -/
def common_doc_types : List String :=
  ["application/pdf",
   "application/vnd.google-apps.document",
   "application/vnd.openxmlformats-officedocument.wordprocessingml.document",
   "application/vnd.openxmlformats-officedocument.spreadsheetml.sheet"]

/-- `get_pilot_folder_files` (lines 331-360): `list_google_drive_files` with
the given folder id, the fixed document MIME list, `include_trashed=False`
and the default `max_results=None`. -/
def get_pilot_folder_files (folder_id : String)
    (remote : Option String → List (List RawFile))
    (lookup : String → Except String ParentLookupResult) (now : String) :
    List FileRecord :=
  list_google_drive_files (some folder_id) (some common_doc_types) false none
    remote lookup now

/-- The remote request selected by `download_file_content`: either
`files().export_media(fileId, mimeType=exportMime)` or
`files().get_media(fileId)`. -/
inductive DriveRequest where
  | export_media (file_id : String) (export_mime : String)
  | get_media (file_id : String)
deriving DecidableEq, Repr

/-- The fixed `export_map` of `download_file_content` (lines 304-308). -/
def export_map : List (String × String) :=
  [("application/vnd.google-apps.document", "application/pdf"),
   ("application/vnd.google-apps.spreadsheet", "application/pdf"),
   ("application/vnd.google-apps.presentation", "application/pdf")]

/-- The format-selection logic of `download_file_content` (lines 298-317):
MIME types starting with `application/vnd.google-apps` are exported with
`export_map.get(mime_type, 'application/pdf')`; everything else is fetched
as raw bytes with `get_media`. -/
def download_request (file_id : String) (mime_type : String) : DriveRequest :=
  if str_startsWith mime_type "application/vnd.google-apps" then
    DriveRequest.export_media file_id
      (((export_map.find? (fun p => p.1 == mime_type)).map Prod.snd).getD
        "application/pdf")
  else
    DriveRequest.get_media file_id

/-- Credential state as `get_drive_service` inspects it: `creds.valid`,
`creds.expired` and the truthiness of `creds.refresh_token`. -/
structure Creds where
  valid : Bool
  expired : Bool
  refresh_token : Bool
deriving DecidableEq, Repr

/-- The observable acquisition steps of `get_drive_service`: a token refresh
(`creds.refresh(Request())`) or the interactive OAuth flow
(`flow.run_local_server(port=0)`). -/
inductive AuthStep where
  | refresh
  | oauth_flow
deriving DecidableEq, Repr

/-- Result of one `get_drive_service` run: the credential the service is
built with, the token cache file content afterwards, and the acquisition
steps performed, in order. -/
structure AuthResult where
  creds : Creds
  token_file : Option Creds
  steps : List AuthStep
deriving DecidableEq, Repr

/-- `get_drive_service` (lines 32-61). `token_file` is the pickled cache
content (`none` = no `token.pickle`); `refresh_fn` is the outcome of
`creds.refresh(Request())`; `flow_creds` is the credential delivered by the
interactive OAuth flow. Valid cached credentials are returned untouched;
otherwise a refresh (when expired with a refresh token) or the interactive
flow produces the credential, which is then pickled back to the cache. -/
def get_drive_service (token_file : Option Creds) (refresh_fn : Creds → Creds)
    (flow_creds : Creds) : AuthResult :=
  match token_file with
  | none => ⟨flow_creds, some flow_creds, [AuthStep.oauth_flow]⟩
  | some creds =>
    if creds.valid then ⟨creds, token_file, []⟩
    else if creds.expired ∧ creds.refresh_token then
      let refreshed := refresh_fn creds
      ⟨refreshed, some refreshed, [AuthStep.refresh]⟩
    else
      ⟨flow_creds, some flow_creds, [AuthStep.oauth_flow]⟩

/-- A record that erases the normalization timestamp of a `FileRecord`,
leaving every other field unchanged. -/
def erase_indexed_at (r : FileRecord) : FileRecord :=
  { r with indexed_at := "" }

/-- A raw record with every optional field absent and every list empty,
used to build concrete test inputs. -/
def rawStub : RawFile :=
  ⟨none, none, none, none, none, none, none, none, none, none, none,
   none, none, none, [], none, [], [], none, none⟩

/-- A parent lookup that always fails, standing for a remote `files().get`
raising on every call. -/
def failing_lookup : String → Except String ParentLookupResult :=
  fun _ => Except.error "HttpError"

/-- A concrete remote page sequence: one page of one record, then a final
page of two records. -/
def demo_pages : List (List RawFile) :=
  [[rawStub], [{ rawStub with id := some "b" }, { rawStub with id := some "c" }]]

/-- A concrete unchanged remote data set serving a single one-record page
for every query. -/
def demo_remote : Option String → List (List RawFile) := fun _ => [[rawStub]]

/-- The pagination loop under a falsy cap (`None` or `0`) never truncates:
it returns the accumulator followed by every record of every page. -/
theorem fetch_pages_of_untruthy (cap : Option Nat) (h : pyTruthyNat cap = false) :
    ∀ (pages : List (List RawFile)) (acc : List RawFile),
      fetch_pages cap pages acc = acc ++ pages.flatten := by
  intro pages
  induction pages with
  | nil => intro acc; simp [fetch_pages]
  | cons p rest ih =>
    intro acc
    simp [fetch_pages, h, ih (acc ++ p), List.append_assoc]

/-- The pagination loop under a positive cap, started below the cap,
produces the first `cap` records of accumulator-plus-pages. -/
theorem fetch_pages_of_pos (n : Nat) :
    ∀ (pages : List (List RawFile)) (acc : List RawFile),
      0 < n → acc.length < n →
      fetch_pages (some n) pages acc = (acc ++ pages.flatten).take n := by
  intro pages
  induction pages with
  | nil =>
    intro acc _ hacc
    simp only [fetch_pages, List.flatten_nil, List.append_nil]
    exact (List.take_of_length_le (Nat.le_of_lt hacc)).symm
  | cons p rest ih =>
    intro acc hn hacc
    have htr : pyTruthyNat (some n) = true := by
      simp [pyTruthyNat]
      omega
    simp only [fetch_pages, List.flatten_cons, Option.getD_some]
    split
    next hcond =>
      rw [← List.append_assoc, List.take_append_of_le_length hcond.2]
    next hcond =>
      have hlt : (acc ++ p).length < n := by
        rcases Decidable.em ((acc ++ p).length ≥ n) with hge | hge
        · exact absurd ⟨htr, hge⟩ hcond
        · omega
      rw [ih (acc ++ p) hn hlt, List.append_assoc]

/-- C1 counterexample: with folder scope absent, MIME filter absent and
`include_trashed = false`, the query builder returns the string
`trashed=false`, not the null/absent query the claim asserts. -/
theorem claim1_counterexample :
    build_query none none false = some "trashed=false"
    ∧ build_query none none false ≠ none := by
  decide

/-- C1 amended: the builder returns the null/absent query exactly when the
folder scope is falsy, the MIME filter is falsy and `include_trashed = true`;
with the default `include_trashed = false` and the other filters absent it
returns the query `trashed=false`. -/
theorem claim1_amended (folder_id : Option String)
    (mime_types : Option (List String)) (include_trashed : Bool) :
    (build_query folder_id mime_types include_trashed = none ↔
      pyTruthyStr folder_id = false ∧ pyTruthyList mime_types = false
        ∧ include_trashed = true)
    ∧ build_query none none false = some "trashed=false" := by
  constructor
  · simp only [build_query]
    by_cases hf : pyTruthyStr folder_id <;> by_cases hm : pyTruthyList mime_types <;>
      cases include_trashed <;> simp [hf, hm]
  · decide

/-- C2 counterexample: a raw record with `size = "0"` (a truthy non-empty
string in Python) is normalized to the integer `0`, not to the null the
claim asserts. -/
theorem claim2_counterexample :
    (_extract_file_metadata { rawStub with size := some "0" }
        failing_lookup "T").file_size_bytes = some 0
    ∧ (_extract_file_metadata { rawStub with size := some "0" }
        failing_lookup "T").file_size_bytes ≠ none := by
  decide

/-- C2 amended: a present non-empty size string is converted with `int(...)`
(so `"4096"` gives `4096` and `"0"` gives `0`, not null); an absent or
empty-string size gives null. -/
theorem claim2_amended (raw : RawFile)
    (lookup : String → Except String ParentLookupResult) (now : String)
    (s : String) (hs : s ≠ "") :
    (_extract_file_metadata { raw with size := some s } lookup now).file_size_bytes
      = pyInt s
    ∧ (_extract_file_metadata { raw with size := none } lookup now).file_size_bytes
      = none
    ∧ (_extract_file_metadata { raw with size := some "" } lookup now).file_size_bytes
      = none
    ∧ (_extract_file_metadata { raw with size := some "4096" } lookup now).file_size_bytes
      = some 4096
    ∧ (_extract_file_metadata { raw with size := some "0" } lookup now).file_size_bytes
      = some 0 := by
  refine ⟨?_, ?_, ?_, ?_, ?_⟩
  · simp [_extract_file_metadata, hs]
  · simp [_extract_file_metadata]
  · simp [_extract_file_metadata]
  · simp [_extract_file_metadata]
    decide
  · simp [_extract_file_metadata]
    decide

/-- C2 witness: the amended statement instantiated at a concrete record with
size `"7"`. -/
theorem claim2_amended_witness :
    ("7" : String) ≠ ""
    ∧ ((_extract_file_metadata { rawStub with size := some "7" }
          failing_lookup "T").file_size_bytes = pyInt "7"
      ∧ (_extract_file_metadata { rawStub with size := none }
          failing_lookup "T").file_size_bytes = none
      ∧ (_extract_file_metadata { rawStub with size := some "" }
          failing_lookup "T").file_size_bytes = none
      ∧ (_extract_file_metadata { rawStub with size := some "4096" }
          failing_lookup "T").file_size_bytes = some 4096
      ∧ (_extract_file_metadata { rawStub with size := some "0" }
          failing_lookup "T").file_size_bytes = some 0) :=
  ⟨by decide, claim2_amended rawStub failing_lookup "T" "7" (by decide)⟩

/-- C3 counterexample: a raw record with no parents is normalized to a
dictionary in which the `parent_folder_id` and `parent_folder_name` keys are
absent, contradicting the claim that every field is always present. -/
theorem claim3_counterexample :
    (_extract_file_metadata rawStub failing_lookup "T").parent_info = none := by
  decide

/-- C3 amended: every normalized record has every schema field present
except `parent_folder_id` and `parent_folder_name`, which are present as
keys exactly when the raw record declares at least one parent. -/
theorem claim3_amended (raw : RawFile)
    (lookup : String → Except String ParentLookupResult) (now : String) :
    (_extract_file_metadata raw lookup now).parent_info.isSome = true ↔
      raw.parents ≠ [] := by
  cases hp : raw.parents with
  | nil => simp [_extract_file_metadata, hp]
  | cons pid rest =>
    cases hl : lookup pid <;> simp [_extract_file_metadata, hp, hl]

/-- C3 witness for the amended statement at a concrete one-parent record. -/
theorem claim3_amended_witness :
    (_extract_file_metadata { rawStub with parents := ["P1"] }
        failing_lookup "T").parent_info.isSome = true ↔
      ({ rawStub with parents := ["P1"] } : RawFile).parents ≠ [] :=
  claim3_amended { rawStub with parents := ["P1"] } failing_lookup "T"

/-- C4: when the lookup of the first declared parent id fails with any
error, normalization does not propagate the failure (it is a total
function) and emits `parent_folder_id` = the original raw parent id and
`parent_folder_name` = `"Unknown"`. -/
theorem claim4_lookup_failure (raw : RawFile)
    (lookup : String → Except String ParentLookupResult) (now : String)
    (pid : String) (rest : List String) (e : String)
    (hp : raw.parents = pid :: rest) (hl : lookup pid = Except.error e) :
    (_extract_file_metadata raw lookup now).parent_info =
      some ⟨some pid, some "Unknown"⟩ := by
  simp [_extract_file_metadata, hp, hl]

/-- C4 witness: a concrete record whose parent lookup fails. -/
theorem claim4_lookup_failure_witness :
    ({ rawStub with parents := ["P1"] } : RawFile).parents = "P1" :: []
    ∧ failing_lookup "P1" = Except.error "HttpError"
    ∧ (_extract_file_metadata { rawStub with parents := ["P1"] }
        failing_lookup "T").parent_info = some ⟨some "P1", some "Unknown"⟩ :=
  ⟨rfl, rfl,
    claim4_lookup_failure { rawStub with parents := ["P1"] } failing_lookup "T"
      "P1" [] "HttpError" rfl rfl⟩

/-- C5: with a positive cap the pagination loop returns exactly the first
`cap` records (so `min cap total` records, truncating and stopping once the
accumulated count reaches the cap), and with no cap it returns every record
of every page, stopping when the continuation cursor is absent. -/
theorem claim5_page_fetcher (pages : List (List RawFile)) (n : Nat)
    (hn : 0 < n) :
    fetch_pages (some n) pages [] = pages.flatten.take n
    ∧ (fetch_pages (some n) pages []).length = min n pages.flatten.length
    ∧ fetch_pages none pages [] = pages.flatten := by
  have h1 : fetch_pages (some n) pages [] = pages.flatten.take n := by
    have := fetch_pages_of_pos n pages [] hn (by simpa using hn)
    simpa using this
  refine ⟨h1, ?_, ?_⟩
  · rw [h1, List.length_take]
  · simpa using fetch_pages_of_untruthy none rfl pages []

/-- C5 witness: cap 2 against a remote serving pages of sizes 1 and 2. -/
theorem claim5_page_fetcher_witness :
    0 < 2
    ∧ (fetch_pages (some 2) demo_pages [] = demo_pages.flatten.take 2
      ∧ (fetch_pages (some 2) demo_pages []).length = min 2 demo_pages.flatten.length
      ∧ fetch_pages none demo_pages [] = demo_pages.flatten) :=
  ⟨by decide, claim5_page_fetcher demo_pages 2 (by decide)⟩

/-- C6 counterexample: two listing calls with the identical query against
the identical remote data set and lookup, but separated in time (so that
`datetime.utcnow()` reads differ), return unequal record sequences, because
`indexed_at` is stamped fresh at normalization time. -/
theorem claim6_counterexample :
    list_google_drive_files none none false none demo_remote failing_lookup
        "2024-01-01T00:00:00"
      ≠ list_google_drive_files none none false none demo_remote failing_lookup
        "2024-01-01T00:00:01" := by
  decide

/-- C6 amended: two listing calls with identical query, remote data set and
lookup results agree in order and in every field except the fresh
normalization timestamp `indexed_at`; they are fully equal exactly when the
two clock readings coincide. -/
theorem claim6_amended (folder_id : Option String)
    (mime_types : Option (List String)) (include_trashed : Bool)
    (max_results : Option Nat) (remote : Option String → List (List RawFile))
    (lookup : String → Except String ParentLookupResult) (now1 now2 : String) :
    (list_google_drive_files folder_id mime_types include_trashed max_results
        remote lookup now1).map erase_indexed_at
      = (list_google_drive_files folder_id mime_types include_trashed
          max_results remote lookup now2).map erase_indexed_at := by
  simp only [list_google_drive_files, List.map_map]
  rfl

/-- C7: in delegated mode with no cache file, the first acquisition runs the
interactive OAuth flow and persists its credential to the cache; an
immediately following acquisition reads the cache and performs neither a
refresh nor an interactive flow; and every acquisition that performs any
step writes the credential it obtained to the cache. -/
theorem claim7_credential_cache (refresh_fn : Creds → Creds)
    (flow_creds : Creds) (tf : Option Creds) (hv : flow_creds.valid = true) :
    (get_drive_service none refresh_fn flow_creds).steps = [AuthStep.oauth_flow]
    ∧ (get_drive_service none refresh_fn flow_creds).token_file = some flow_creds
    ∧ (get_drive_service (get_drive_service none refresh_fn flow_creds).token_file
        refresh_fn flow_creds).steps = []
    ∧ (get_drive_service (get_drive_service none refresh_fn flow_creds).token_file
        refresh_fn flow_creds).creds = flow_creds
    ∧ ((get_drive_service tf refresh_fn flow_creds).steps ≠ [] →
        (get_drive_service tf refresh_fn flow_creds).token_file =
          some (get_drive_service tf refresh_fn flow_creds).creds) := by
  refine ⟨rfl, rfl, ?_, ?_, ?_⟩
  · simp [get_drive_service, hv]
  · simp [get_drive_service, hv]
  · cases tf with
    | none => intro _; rfl
    | some c =>
      by_cases hcv : c.valid
      · simp [get_drive_service, hcv]
      · by_cases hcr : c.expired = true ∧ c.refresh_token = true
        · simp [get_drive_service, hcv, hcr]
        · simp [get_drive_service, hcv, hcr]

/-- C7 witness: a valid interactively-granted credential, starting with no
cache file. -/
theorem claim7_credential_cache_witness :
    (⟨true, false, false⟩ : Creds).valid = true
    ∧ ((get_drive_service none id ⟨true, false, false⟩).steps = [AuthStep.oauth_flow]
      ∧ (get_drive_service none id ⟨true, false, false⟩).token_file =
          some ⟨true, false, false⟩
      ∧ (get_drive_service (get_drive_service none id ⟨true, false, false⟩).token_file
          id ⟨true, false, false⟩).steps = []
      ∧ (get_drive_service (get_drive_service none id ⟨true, false, false⟩).token_file
          id ⟨true, false, false⟩).creds = ⟨true, false, false⟩
      ∧ ((get_drive_service none id ⟨true, false, false⟩).steps ≠ [] →
          (get_drive_service none id ⟨true, false, false⟩).token_file =
            some (get_drive_service none id ⟨true, false, false⟩).creds)) :=
  ⟨rfl, claim7_credential_cache id ⟨true, false, false⟩ none rfl⟩

/-- C8: the content retriever selects a format export exactly for MIME types
of the provider-native family (prefix `application/vnd.google-apps`), using
the fixed export map with `application/pdf` as the fallback for unmapped
native types, and selects direct raw-byte retrieval otherwise; in
particular the spreadsheet type exports to `application/pdf` and
`application/pdf` itself is fetched directly. -/
theorem claim8_download_decision (file_id mime_type : String) :
    ((∃ em, download_request file_id mime_type =
        DriveRequest.export_media file_id em) ↔
      str_startsWith mime_type "application/vnd.google-apps" = true)
    ∧ (str_startsWith mime_type "application/vnd.google-apps" = false →
        download_request file_id mime_type = DriveRequest.get_media file_id)
    ∧ (str_startsWith mime_type "application/vnd.google-apps" = true →
        export_map.find? (fun p => p.1 == mime_type) = none →
        download_request file_id mime_type =
          DriveRequest.export_media file_id "application/pdf")
    ∧ download_request file_id "application/vnd.google-apps.spreadsheet" =
        DriveRequest.export_media file_id "application/pdf"
    ∧ download_request file_id "application/pdf" =
        DriveRequest.get_media file_id := by
  refine ⟨?_, ?_, ?_, rfl, rfl⟩
  · by_cases h : str_startsWith mime_type "application/vnd.google-apps" <;>
      simp [download_request, h]
  · intro h
    simp [download_request, h]
  · intro h hf
    simp [download_request, h, hf]

/-- C8 witness: the decision evaluated at a concrete file id, including an
unmapped native type falling back to `application/pdf`. -/
theorem claim8_download_decision_witness :
    ((∃ em, download_request "f1" "application/vnd.google-apps.drawing" =
        DriveRequest.export_media "f1" em) ↔
      str_startsWith "application/vnd.google-apps.drawing"
        "application/vnd.google-apps" = true)
    ∧ (str_startsWith "application/vnd.google-apps.drawing"
          "application/vnd.google-apps" = false →
        download_request "f1" "application/vnd.google-apps.drawing" =
          DriveRequest.get_media "f1")
    ∧ (str_startsWith "application/vnd.google-apps.drawing"
          "application/vnd.google-apps" = true →
        export_map.find? (fun p => p.1 == "application/vnd.google-apps.drawing")
            = none →
        download_request "f1" "application/vnd.google-apps.drawing" =
          DriveRequest.export_media "f1" "application/pdf")
    ∧ download_request "f1" "application/vnd.google-apps.spreadsheet" =
        DriveRequest.export_media "f1" "application/pdf"
    ∧ download_request "f1" "application/pdf" = DriveRequest.get_media "f1" :=
  claim8_download_decision "f1" "application/vnd.google-apps.drawing"

/-- C9: a result cap of `0` (falsy in Python, like `None`) disables
truncation entirely: the listing loop behaves exactly as with no cap and
returns every record of every page. -/
theorem claim9_zero_cap (pages : List (List RawFile)) :
    fetch_pages (some 0) pages [] = fetch_pages none pages []
    ∧ fetch_pages (some 0) pages [] = pages.flatten := by
  have h0 := fetch_pages_of_untruthy (some 0) rfl pages []
  have h1 := fetch_pages_of_untruthy none rfl pages []
  simp only [List.nil_append] at h0 h1
  exact ⟨h0.trans h1.symm, h0⟩

/-- C10: an empty-string folder id is falsy, so the folder-scope clause is
omitted exactly as when the folder id is absent; in particular the
scoped-folder convenience query with folder id `""` coincides with the
unscoped listing over the fixed document MIME list. -/
theorem claim10_empty_folder_id (mime_types : Option (List String))
    (include_trashed : Bool) (remote : Option String → List (List RawFile))
    (lookup : String → Except String ParentLookupResult) (now : String) :
    build_query (some "") mime_types include_trashed =
      build_query none mime_types include_trashed
    ∧ get_pilot_folder_files "" remote lookup now =
        list_google_drive_files none (some common_doc_types) false none
          remote lookup now := by
  constructor
  · rfl
  · rfl

end DriveRag
